import Mathlib

/-!
Verification development for the Atlas Travel Assistant repository.

Shallow embedding of the Pydantic domain models (`src/atlas/domain/models.py`),
the LangGraph conversation loop (`src/atlas/agents/travel_agent.py`), and the
two tool stubs (`src/atlas/tools/weather.py`, `src/atlas/tools/search.py`).

Conventions of the embedding:
- Python `date` / `datetime` values are modelled as integers (ordinal /
  timestamp); their JSON forms are modelled as the corresponding integer
  interchange value, since the string conversion used by Pydantic is a
  bijection that the code never inspects.
- Python `float` fields are modelled as `Rat`: the code performs no
  arithmetic on them, only stores and serializes them, so the carrier only
  needs decidable equality and faithful pass-through.
- Python dicts built by the tools are modelled as ordered association lists
  `List (String × JValue)`, preserving literal key order.
-/

namespace Atlas

/-- Interchange (JSON-like) value, the target of Pydantic `model_dump` and the
source of `model_validate` in this embedding. -/
inductive JValue where
  | null : JValue
  | jbool : Bool → JValue
  | jint : Int → JValue
  | jrat : Rat → JValue
  | jstr : String → JValue
  | jarr : List JValue → JValue
  | jobj : List (String × JValue) → JValue

/-- Dates modelled as ordinal day numbers. -/
abbrev Date := Int

/-- Datetimes modelled as integer timestamps. -/
abbrev DateTime := Int

-- ── Enums (models.py lines 17-51) ─────────────────────────────────────

/-- `ActivityCategory` enum from models.py. -/
inductive ActivityCategory where
  | sightseeing | food | culture | adventure | leisure
deriving DecidableEq, Repr

def ActivityCategory.value : ActivityCategory → String
  | .sightseeing => "sightseeing"
  | .food => "food"
  | .culture => "culture"
  | .adventure => "adventure"
  | .leisure => "leisure"

def ActivityCategory.ofValue : String → Except String ActivityCategory
  | "sightseeing" => .ok .sightseeing
  | "food" => .ok .food
  | "culture" => .ok .culture
  | "adventure" => .ok .adventure
  | "leisure" => .ok .leisure
  | _ => .error "invalid ActivityCategory"

/-- `TripPace` enum from models.py. -/
inductive TripPace where
  | relaxed | moderate | packed
deriving DecidableEq, Repr

def TripPace.value : TripPace → String
  | .relaxed => "relaxed"
  | .moderate => "moderate"
  | .packed => "packed"

def TripPace.ofValue : String → Except String TripPace
  | "relaxed" => .ok .relaxed
  | "moderate" => .ok .moderate
  | "packed" => .ok .packed
  | _ => .error "invalid TripPace"

/-- `TransitMode` enum from models.py. -/
inductive TransitMode where
  | walk | bus | train | taxi | other
deriving DecidableEq, Repr

def TransitMode.value : TransitMode → String
  | .walk => "walk"
  | .bus => "bus"
  | .train => "train"
  | .taxi => "taxi"
  | .other => "other"

def TransitMode.ofValue : String → Except String TransitMode
  | "walk" => .ok .walk
  | "bus" => .ok .bus
  | "train" => .ok .train
  | "taxi" => .ok .taxi
  | "other" => .ok .other
  | _ => .error "invalid TransitMode"

/-- `DaySource` enum from models.py. -/
inductive DaySource where
  | user | generated | refined
deriving DecidableEq, Repr

def DaySource.value : DaySource → String
  | .user => "user"
  | .generated => "generated"
  | .refined => "refined"

def DaySource.ofValue : String → Except String DaySource
  | "user" => .ok .user
  | "generated" => .ok .generated
  | "refined" => .ok .refined
  | _ => .error "invalid DaySource"

/-- `NoteAuthor` enum from models.py. -/
inductive NoteAuthor where
  | agent | user
deriving DecidableEq, Repr

def NoteAuthor.value : NoteAuthor → String
  | .agent => "agent"
  | .user => "user"

def NoteAuthor.ofValue : String → Except String NoteAuthor
  | "agent" => .ok .agent
  | "user" => .ok .user
  | _ => .error "invalid NoteAuthor"

-- ── Interchange helpers shared by all entity serializers ──────────────

/-- Serialize an optional float field (`float | None` in the source). -/
def jOfOptRat : Option Rat → JValue
  | none => .null
  | some q => .jrat q

def parseOptRat : JValue → Except String (Option Rat)
  | .null => .ok none
  | .jrat q => .ok (some q)
  | _ => .error "expected number or null"

/-- Serialize an optional string field (`str | None` in the source). -/
def jOfOptStr : Option String → JValue
  | none => .null
  | some s => .jstr s

def parseOptStr : JValue → Except String (Option String)
  | .null => .ok none
  | .jstr s => .ok (some s)
  | _ => .error "expected string or null"

/-- Serialize a `tuple[float, float] | None` coordinates field. -/
def jOfCoords : Option (Rat × Rat) → JValue
  | none => .null
  | some (lat, lon) => .jarr [.jrat lat, .jrat lon]

def parseCoords : JValue → Except String (Option (Rat × Rat))
  | .null => .ok none
  | .jarr [.jrat lat, .jrat lon] => .ok (some (lat, lon))
  | _ => .error "expected coordinate pair or null"

/-- Serialize a `list[str]` field. -/
def jOfStrList (xs : List String) : JValue := .jarr (xs.map .jstr)

def parseStr : JValue → Except String String
  | .jstr s => .ok s
  | _ => .error "expected string"

/-- Parse a list of interchange values element-wise, failing on the first
element the given parser rejects. -/
def parseListWith (p : JValue → Except String α) : List JValue → Except String (List α)
  | [] => .ok []
  | v :: vs =>
    match p v, parseListWith p vs with
    | .ok a, .ok rest => .ok (a :: rest)
    | .error e, _ => .error e
    | _, .error e => .error e

def parseStrList : JValue → Except String (List String)
  | .jarr vs => parseListWith parseStr vs
  | _ => .error "expected array of strings"

-- roundtrip lemmas for the helpers
theorem jOfOptRat_rt (o : Option Rat) : parseOptRat (jOfOptRat o) = .ok o := by
  cases o <;> rfl

theorem jOfOptStr_rt (o : Option String) : parseOptStr (jOfOptStr o) = .ok o := by
  cases o <;> rfl

theorem jOfCoords_rt (o : Option (Rat × Rat)) : parseCoords (jOfCoords o) = .ok o := by
  cases o with
  | none => rfl
  | some p => cases p; rfl

theorem parseListWith_map {α : Type} (p : JValue → Except String α) (f : α → JValue)
    (xs : List α) (h : ∀ x ∈ xs, p (f x) = .ok x) :
    parseListWith p (xs.map f) = .ok xs := by
  induction xs with
  | nil => rfl
  | cons x rest ih =>
    have hx : p (f x) = .ok x := h x (by simp)
    have hr : parseListWith p (rest.map f) = .ok rest :=
      ih (fun y hy => h y (by simp [hy]))
    simp [List.map, parseListWith, hx, hr]

theorem jOfStrList_rt (xs : List String) : parseStrList (jOfStrList xs) = .ok xs := by
  simp [jOfStrList, parseStrList]
  exact parseListWith_map parseStr JValue.jstr xs (fun x _ => rfl)

theorem activityCategory_ofValue_value (c : ActivityCategory) :
    ActivityCategory.ofValue c.value = .ok c := by cases c <;> rfl

theorem tripPace_ofValue_value (p : TripPace) : TripPace.ofValue p.value = .ok p := by
  cases p <;> rfl

theorem transitMode_ofValue_value (m : TransitMode) : TransitMode.ofValue m.value = .ok m := by
  cases m <;> rfl

theorem daySource_ofValue_value (s : DaySource) : DaySource.ofValue s.value = .ok s := by
  cases s <;> rfl

theorem noteAuthor_ofValue_value (a : NoteAuthor) : NoteAuthor.ofValue a.value = .ok a := by
  cases a <;> rfl

-- ── Core models (models.py lines 55-188) ──────────────────────────────

/-- `TripPreferences` (models.py lines 55-62): plain fields with defaults,
no `Field` constraints declared in the source. -/
structure TripPreferences where
  traveler_count : Int
  budget_usd : Option Rat
  interests : List String
  accessibility_needs : List String
  pace : TripPace
deriving DecidableEq, Repr

/-- `Destination` (models.py lines 65-69). Its class body declares no
`model_config`, so it keeps Pydantic's default (mutable) configuration. -/
structure Destination where
  name : String
  country : String
  iata_code : Option String
  coordinates : Option (Rat × Rat)
deriving DecidableEq, Repr

/-- `ActivityNote` (models.py lines 72-80), `model_config = ConfigDict(frozen=True)`. -/
structure ActivityNote where
  author : NoteAuthor
  content : String
  links : List String
  tags : List String
deriving DecidableEq, Repr

/-- `Activity` (models.py lines 83-95), frozen. -/
structure Activity where
  title : String
  description : String
  duration_hours : Rat
  category : ActivityCategory
  start_time : Option String
  end_time : Option String
  estimated_cost_usd : Option Rat
  location : Option String
  coordinates : Option (Rat × Rat)
  notes : List ActivityNote
deriving DecidableEq, Repr

/-- `TravelSegment` (models.py lines 98-106), frozen. -/
structure TravelSegment where
  mode : TransitMode
  duration_minutes : Int
  description : String
  estimated_cost_usd : Option Rat
deriving DecidableEq, Repr

/-- `ItineraryDay` (models.py lines 109-116), frozen. -/
structure ItineraryDay where
  date : Date
  activities : List Activity
  travel_segments : List TravelSegment
  notes : String
  source : DaySource
deriving DecidableEq, Repr

/-- `Flight` (models.py lines 119-132), frozen. -/
structure Flight where
  airline : String
  flight_number : String
  departure_airport : String
  arrival_airport : String
  departure_time : DateTime
  arrival_time : DateTime
  duration_hours : Rat
  cabin_class : String
  estimated_cost_usd : Option Rat
deriving DecidableEq, Repr

/-- `Accommodation` (models.py lines 135-148), frozen. -/
structure Accommodation where
  name : String
  star_rating : Option Rat
  nightly_rate_usd : Option Rat
  total_cost_usd : Option Rat
  check_in : Date
  check_out : Date
  description : String
  location : Option String
  coordinates : Option (Rat × Rat)
deriving DecidableEq, Repr

/-- `Itinerary` (models.py lines 151-166): mutable aggregate root with the
`end_after_start` field validator (a field validator is part of the model's
validation schema, so it runs both in `Itinerary.construct` and in
`Itinerary.model_validate` below). -/
structure Itinerary where
  destination : Destination
  start_date : Date
  end_date : Date
  preferences : TripPreferences
  days : List ItineraryDay
  flights : List Flight
  accommodations : List Accommodation
  created_at : DateTime
deriving DecidableEq, Repr

/-- `ChatMessage` (models.py lines 169-172). -/
structure ChatMessage where
  role : String
  content : String
  timestamp : DateTime
deriving DecidableEq, Repr

/-- `UserProfile` (models.py lines 175-188). -/
structure UserProfile where
  favourite_destination_types : List String
  favourite_categories : List String
  preferred_pace : TripPace
  typical_budget_usd : Option Rat
  past_destinations : List String
  trip_count : Int
  updated_at : DateTime
deriving DecidableEq, Repr

-- ── Frozen configuration and attribute assignment ─────────────────────

/-- `model_config` frozen flag of each model class, exactly as declared in
models.py. Classes with no `model_config` line keep Pydantic's default
(mutable) configuration. -/
def TripPreferences.frozen : Bool := false

def Destination.frozen : Bool := false

def ActivityNote.frozen : Bool := true

def Activity.frozen : Bool := true

def TravelSegment.frozen : Bool := true

def ItineraryDay.frozen : Bool := true

def Flight.frozen : Bool := true

def Accommodation.frozen : Bool := true

def Itinerary.frozen : Bool := false

def ChatMessage.frozen : Bool := false

def UserProfile.frozen : Bool := false

/-- Semantics of Python attribute assignment `instance.field = value` on a
Pydantic model: on a frozen model the assignment raises a frozen-instance
`ValidationError` (`Except.error`); on a non-frozen model the assignment
takes effect, yielding the updated value. `current` is the instance before
the assignment and `updated` the instance with the field replaced. -/
def setAttr (frozen : Bool) (current updated : α) : Except String α :=
  if frozen then .error "Instance is frozen" else .ok updated

/-- The value an instance denotes after an attempted field assignment:
unchanged when the assignment raised, the updated value when it took
effect. -/
def afterSetAttr (frozen : Bool) (current updated : α) : α :=
  match setAttr frozen current updated with
  | .error _ => current
  | .ok v => v

-- ── Validated construction ────────────────────────────────────────────

/-- The `end_after_start` field validator (models.py lines 161-166): runs on
`end_date` with `start_date` already present in `info.data` for well-typed
input, and raises when `end_date <= start_date`. -/
def Itinerary.end_after_start (start_date v : Date) : Except String Date :=
  if v ≤ start_date then .error "end_date must be after start_date" else .ok v

/-- Pydantic construction of `Itinerary`: every field is parsed, then the
`end_after_start` validator runs on `end_date`; no other field has a
validator. -/
def Itinerary.construct (destination : Destination) (start_date end_date : Date)
    (preferences : TripPreferences) (days : List ItineraryDay)
    (flights : List Flight) (accommodations : List Accommodation)
    (created_at : DateTime) : Except String Itinerary :=
  match Itinerary.end_after_start start_date end_date with
  | .error e => .error e
  | .ok v =>
    .ok ⟨destination, start_date, v, preferences, days, flights, accommodations, created_at⟩

/-- Pydantic construction of `TripPreferences` (models.py lines 55-62): the
class declares no validators and no `Field` constraints, so construction from
well-typed field values always succeeds. -/
def TripPreferences.construct (traveler_count : Int) (budget_usd : Option Rat)
    (interests accessibility_needs : List String) (pace : TripPace) :
    Except String TripPreferences :=
  .ok ⟨traveler_count, budget_usd, interests, accessibility_needs, pace⟩

/-- The declared field defaults of `TripPreferences`: `traveler_count = 1`,
`budget_usd = None`, empty lists, `pace = TripPace.MODERATE`. -/
def TripPreferences.defaults : TripPreferences :=
  ⟨1, none, [], [], TripPace.moderate⟩

-- ── Serialization: model_dump / model_validate per entity ─────────────

def TripPreferences.model_dump (p : TripPreferences) : JValue :=
  .jobj [("traveler_count", .jint p.traveler_count),
         ("budget_usd", jOfOptRat p.budget_usd),
         ("interests", jOfStrList p.interests),
         ("accessibility_needs", jOfStrList p.accessibility_needs),
         ("pace", .jstr p.pace.value)]

def TripPreferences.model_validate : JValue → Except String TripPreferences
  | .jobj [("traveler_count", .jint tc), ("budget_usd", b), ("interests", i),
           ("accessibility_needs", a), ("pace", .jstr pv)] =>
    match parseOptRat b, parseStrList i, parseStrList a, TripPace.ofValue pv with
    | .ok b, .ok i, .ok a, .ok p => .ok ⟨tc, b, i, a, p⟩
    | _, _, _, _ => .error "invalid TripPreferences"
  | _ => .error "invalid TripPreferences"

theorem tripPreferences_model_rt (p : TripPreferences) :
    TripPreferences.model_validate p.model_dump = .ok p := by
  cases p with
  | mk tc b i a pc =>
    simp [TripPreferences.model_dump, TripPreferences.model_validate,
      jOfOptRat_rt, jOfStrList_rt, tripPace_ofValue_value]

def Destination.model_dump (d : Destination) : JValue :=
  .jobj [("name", .jstr d.name), ("country", .jstr d.country),
         ("iata_code", jOfOptStr d.iata_code),
         ("coordinates", jOfCoords d.coordinates)]

def Destination.model_validate : JValue → Except String Destination
  | .jobj [("name", .jstr n), ("country", .jstr c), ("iata_code", i),
           ("coordinates", co)] =>
    match parseOptStr i, parseCoords co with
    | .ok i, .ok co => .ok ⟨n, c, i, co⟩
    | _, _ => .error "invalid Destination"
  | _ => .error "invalid Destination"

theorem destination_model_rt (d : Destination) :
    Destination.model_validate d.model_dump = .ok d := by
  cases d with
  | mk n c i co =>
    simp [Destination.model_dump, Destination.model_validate, jOfOptStr_rt, jOfCoords_rt]

def ActivityNote.model_dump (n : ActivityNote) : JValue :=
  .jobj [("author", .jstr n.author.value), ("content", .jstr n.content),
         ("links", jOfStrList n.links), ("tags", jOfStrList n.tags)]

def ActivityNote.model_validate : JValue → Except String ActivityNote
  | .jobj [("author", .jstr a), ("content", .jstr c), ("links", l), ("tags", t)] =>
    match NoteAuthor.ofValue a, parseStrList l, parseStrList t with
    | .ok a, .ok l, .ok t => .ok ⟨a, c, l, t⟩
    | _, _, _ => .error "invalid ActivityNote"
  | _ => .error "invalid ActivityNote"

theorem activityNote_model_rt (n : ActivityNote) :
    ActivityNote.model_validate n.model_dump = .ok n := by
  cases n with
  | mk a c l t =>
    simp [ActivityNote.model_dump, ActivityNote.model_validate,
      noteAuthor_ofValue_value, jOfStrList_rt]

def Activity.model_dump (a : Activity) : JValue :=
  .jobj [("title", .jstr a.title), ("description", .jstr a.description),
         ("duration_hours", .jrat a.duration_hours),
         ("category", .jstr a.category.value),
         ("start_time", jOfOptStr a.start_time),
         ("end_time", jOfOptStr a.end_time),
         ("estimated_cost_usd", jOfOptRat a.estimated_cost_usd),
         ("location", jOfOptStr a.location),
         ("coordinates", jOfCoords a.coordinates),
         ("notes", .jarr (a.notes.map ActivityNote.model_dump))]

def Activity.model_validate : JValue → Except String Activity
  | .jobj [("title", .jstr t), ("description", .jstr d),
           ("duration_hours", .jrat dh), ("category", .jstr cv),
           ("start_time", st), ("end_time", et),
           ("estimated_cost_usd", ec), ("location", loc),
           ("coordinates", co), ("notes", .jarr ns)] =>
    match ActivityCategory.ofValue cv, parseOptStr st, parseOptStr et,
        parseOptRat ec, parseOptStr loc, parseCoords co,
        parseListWith ActivityNote.model_validate ns with
    | .ok c, .ok st, .ok et, .ok ec, .ok loc, .ok co, .ok ns =>
      .ok ⟨t, d, dh, c, st, et, ec, loc, co, ns⟩
    | _, _, _, _, _, _, _ => .error "invalid Activity"
  | _ => .error "invalid Activity"

set_option maxHeartbeats 2000000 in
theorem activity_model_rt (a : Activity) :
    Activity.model_validate a.model_dump = .ok a := by
  cases a with
  | mk t d dh c st et ec loc co ns =>
    have hn : parseListWith ActivityNote.model_validate (ns.map ActivityNote.model_dump)
        = .ok ns :=
      parseListWith_map ActivityNote.model_validate ActivityNote.model_dump ns
        (fun n _ => activityNote_model_rt n)
    simp [Activity.model_dump, Activity.model_validate, activityCategory_ofValue_value,
      jOfOptStr_rt, jOfOptRat_rt, jOfCoords_rt, hn]

def TravelSegment.model_dump (s : TravelSegment) : JValue :=
  .jobj [("mode", .jstr s.mode.value), ("duration_minutes", .jint s.duration_minutes),
         ("description", .jstr s.description),
         ("estimated_cost_usd", jOfOptRat s.estimated_cost_usd)]

def TravelSegment.model_validate : JValue → Except String TravelSegment
  | .jobj [("mode", .jstr mv), ("duration_minutes", .jint dm),
           ("description", .jstr d), ("estimated_cost_usd", ec)] =>
    match TransitMode.ofValue mv, parseOptRat ec with
    | .ok m, .ok ec => .ok ⟨m, dm, d, ec⟩
    | _, _ => .error "invalid TravelSegment"
  | _ => .error "invalid TravelSegment"

theorem travelSegment_model_rt (s : TravelSegment) :
    TravelSegment.model_validate s.model_dump = .ok s := by
  cases s with
  | mk m dm d ec =>
    simp [TravelSegment.model_dump, TravelSegment.model_validate,
      transitMode_ofValue_value, jOfOptRat_rt]

def ItineraryDay.model_dump (d : ItineraryDay) : JValue :=
  .jobj [("date", .jint d.date),
         ("activities", .jarr (d.activities.map Activity.model_dump)),
         ("travel_segments", .jarr (d.travel_segments.map TravelSegment.model_dump)),
         ("notes", .jstr d.notes),
         ("source", .jstr d.source.value)]

def ItineraryDay.model_validate : JValue → Except String ItineraryDay
  | .jobj [("date", .jint dt), ("activities", .jarr as),
           ("travel_segments", .jarr ts), ("notes", .jstr n),
           ("source", .jstr sv)] =>
    match parseListWith Activity.model_validate as,
        parseListWith TravelSegment.model_validate ts, DaySource.ofValue sv with
    | .ok as, .ok ts, .ok s => .ok ⟨dt, as, ts, n, s⟩
    | _, _, _ => .error "invalid ItineraryDay"
  | _ => .error "invalid ItineraryDay"

theorem itineraryDay_model_rt (d : ItineraryDay) :
    ItineraryDay.model_validate d.model_dump = .ok d := by
  cases d with
  | mk dt as ts n s =>
    have ha : parseListWith Activity.model_validate (as.map Activity.model_dump) = .ok as :=
      parseListWith_map Activity.model_validate Activity.model_dump as
        (fun a _ => activity_model_rt a)
    have ht : parseListWith TravelSegment.model_validate (ts.map TravelSegment.model_dump)
        = .ok ts :=
      parseListWith_map TravelSegment.model_validate TravelSegment.model_dump ts
        (fun t _ => travelSegment_model_rt t)
    simp [ItineraryDay.model_dump, ItineraryDay.model_validate, ha, ht,
      daySource_ofValue_value]

def Flight.model_dump (f : Flight) : JValue :=
  .jobj [("airline", .jstr f.airline), ("flight_number", .jstr f.flight_number),
         ("departure_airport", .jstr f.departure_airport),
         ("arrival_airport", .jstr f.arrival_airport),
         ("departure_time", .jint f.departure_time),
         ("arrival_time", .jint f.arrival_time),
         ("duration_hours", .jrat f.duration_hours),
         ("cabin_class", .jstr f.cabin_class),
         ("estimated_cost_usd", jOfOptRat f.estimated_cost_usd)]

def Flight.model_validate : JValue → Except String Flight
  | .jobj [("airline", .jstr al), ("flight_number", .jstr fn),
           ("departure_airport", .jstr da), ("arrival_airport", .jstr aa),
           ("departure_time", .jint dt), ("arrival_time", .jint art),
           ("duration_hours", .jrat dh), ("cabin_class", .jstr cc),
           ("estimated_cost_usd", ec)] =>
    match parseOptRat ec with
    | .ok ec => .ok ⟨al, fn, da, aa, dt, art, dh, cc, ec⟩
    | _ => .error "invalid Flight"
  | _ => .error "invalid Flight"

set_option maxHeartbeats 2000000 in
theorem flight_model_rt (f : Flight) :
    Flight.model_validate f.model_dump = .ok f := by
  cases f with
  | mk al fn da aa dt art dh cc ec =>
    simp [Flight.model_dump, Flight.model_validate, jOfOptRat_rt]

def Accommodation.model_dump (a : Accommodation) : JValue :=
  .jobj [("name", .jstr a.name), ("star_rating", jOfOptRat a.star_rating),
         ("nightly_rate_usd", jOfOptRat a.nightly_rate_usd),
         ("total_cost_usd", jOfOptRat a.total_cost_usd),
         ("check_in", .jint a.check_in), ("check_out", .jint a.check_out),
         ("description", .jstr a.description),
         ("location", jOfOptStr a.location),
         ("coordinates", jOfCoords a.coordinates)]

def Accommodation.model_validate : JValue → Except String Accommodation
  | .jobj [("name", .jstr n), ("star_rating", sr), ("nightly_rate_usd", nr),
           ("total_cost_usd", tc), ("check_in", .jint ci), ("check_out", .jint co),
           ("description", .jstr d), ("location", loc), ("coordinates", crd)] =>
    match parseOptRat sr, parseOptRat nr, parseOptRat tc, parseOptStr loc,
        parseCoords crd with
    | .ok sr, .ok nr, .ok tc, .ok loc, .ok crd =>
      .ok ⟨n, sr, nr, tc, ci, co, d, loc, crd⟩
    | _, _, _, _, _ => .error "invalid Accommodation"
  | _ => .error "invalid Accommodation"

set_option maxHeartbeats 2000000 in
theorem accommodation_model_rt (a : Accommodation) :
    Accommodation.model_validate a.model_dump = .ok a := by
  cases a with
  | mk n sr nr tc ci co d loc crd =>
    simp [Accommodation.model_dump, Accommodation.model_validate,
      jOfOptRat_rt, jOfOptStr_rt, jOfCoords_rt]

def Itinerary.model_dump (it : Itinerary) : JValue :=
  .jobj [("destination", it.destination.model_dump),
         ("start_date", .jint it.start_date), ("end_date", .jint it.end_date),
         ("preferences", it.preferences.model_dump),
         ("days", .jarr (it.days.map ItineraryDay.model_dump)),
         ("flights", .jarr (it.flights.map Flight.model_dump)),
         ("accommodations", .jarr (it.accommodations.map Accommodation.model_dump)),
         ("created_at", .jint it.created_at)]

/-- Pydantic `model_validate` for `Itinerary`: parses every field and, like
construction, re-runs the `end_after_start` field validator on the parsed
`end_date` (with `start_date` already in `info.data`). -/
def Itinerary.model_validate : JValue → Except String Itinerary
  | .jobj [("destination", dv), ("start_date", .jint sd), ("end_date", .jint ed),
           ("preferences", pv), ("days", .jarr ds), ("flights", .jarr fs),
           ("accommodations", .jarr acs), ("created_at", .jint ca)] =>
    match Itinerary.end_after_start sd ed, Destination.model_validate dv,
        TripPreferences.model_validate pv,
        parseListWith ItineraryDay.model_validate ds,
        parseListWith Flight.model_validate fs,
        parseListWith Accommodation.model_validate acs with
    | .ok ed2, .ok d, .ok p, .ok ds, .ok fs, .ok acs =>
      .ok ⟨d, sd, ed2, p, ds, fs, acs, ca⟩
    | _, _, _, _, _, _ => .error "invalid Itinerary"
  | _ => .error "invalid Itinerary"

set_option maxHeartbeats 2000000 in
theorem itinerary_model_rt (it : Itinerary) (h : it.start_date < it.end_date) :
    Itinerary.model_validate it.model_dump = .ok it := by
  cases it with
  | mk d sd ed p ds fs acs ca =>
    have hv : Itinerary.end_after_start sd ed = .ok ed := by
      simp [Itinerary.end_after_start, not_le.mpr h]
    have hd : parseListWith ItineraryDay.model_validate (ds.map ItineraryDay.model_dump)
        = .ok ds :=
      parseListWith_map ItineraryDay.model_validate ItineraryDay.model_dump ds
        (fun x _ => itineraryDay_model_rt x)
    have hf : parseListWith Flight.model_validate (fs.map Flight.model_dump) = .ok fs :=
      parseListWith_map Flight.model_validate Flight.model_dump fs
        (fun x _ => flight_model_rt x)
    have hac : parseListWith Accommodation.model_validate
        (acs.map Accommodation.model_dump) = .ok acs :=
      parseListWith_map Accommodation.model_validate Accommodation.model_dump acs
        (fun x _ => accommodation_model_rt x)
    simp [Itinerary.model_dump, Itinerary.model_validate, destination_model_rt,
      tripPreferences_model_rt, hv, hd, hf, hac]

def ChatMessage.model_dump (m : ChatMessage) : JValue :=
  .jobj [("role", .jstr m.role), ("content", .jstr m.content),
         ("timestamp", .jint m.timestamp)]

def ChatMessage.model_validate : JValue → Except String ChatMessage
  | .jobj [("role", .jstr r), ("content", .jstr c), ("timestamp", .jint t)] =>
    .ok ⟨r, c, t⟩
  | _ => .error "invalid ChatMessage"

theorem chatMessage_model_rt (m : ChatMessage) :
    ChatMessage.model_validate m.model_dump = .ok m := by
  cases m; rfl

def UserProfile.model_dump (u : UserProfile) : JValue :=
  .jobj [("favourite_destination_types", jOfStrList u.favourite_destination_types),
         ("favourite_categories", jOfStrList u.favourite_categories),
         ("preferred_pace", .jstr u.preferred_pace.value),
         ("typical_budget_usd", jOfOptRat u.typical_budget_usd),
         ("past_destinations", jOfStrList u.past_destinations),
         ("trip_count", .jint u.trip_count),
         ("updated_at", .jint u.updated_at)]

def UserProfile.model_validate : JValue → Except String UserProfile
  | .jobj [("favourite_destination_types", fdt), ("favourite_categories", fc),
           ("preferred_pace", .jstr pv), ("typical_budget_usd", tb),
           ("past_destinations", pd), ("trip_count", .jint tc),
           ("updated_at", .jint ua)] =>
    match parseStrList fdt, parseStrList fc, TripPace.ofValue pv,
        parseOptRat tb, parseStrList pd with
    | .ok fdt, .ok fc, .ok p, .ok tb, .ok pd => .ok ⟨fdt, fc, p, tb, pd, tc, ua⟩
    | _, _, _, _, _ => .error "invalid UserProfile"
  | _ => .error "invalid UserProfile"

set_option maxHeartbeats 1000000 in
theorem userProfile_model_rt (u : UserProfile) :
    UserProfile.model_validate u.model_dump = .ok u := by
  cases u with
  | mk fdt fc p tb pd tc ua =>
    simp [UserProfile.model_dump, UserProfile.model_validate, jOfStrList_rt,
      tripPace_ofValue_value, jOfOptRat_rt]

-- ── Tool stubs (src/atlas/tools) ──────────────────────────────────────

/-- The failure modes of the `httpx` call inside a tool body: success, an
HTTP status error (`httpx.HTTPStatusError`), or a request error
(`httpx.RequestError`). In the current placeholder bodies nothing raises,
but the handlers exist in the source, so the outcome is a parameter of the
weather embedding. -/
inductive HttpOutcome where
  | success
  | statusError (code : Nat)
  | requestError (msg : String)
deriving DecidableEq, Repr

/-- `get_weather` (weather.py lines 15-67). `api_key` is
`settings.atlas_weather_api_key`, whose declared default is the empty
string; Python truthiness makes `if not api_key` the `api_key = ""` test.
The returned Python dict is modelled as an ordered association list. -/
def get_weather (city date api_key : String) (outcome : HttpOutcome) :
    List (String × JValue) :=
  if api_key = "" then
    [("city", .jstr city), ("date", .jstr date),
     ("error", .jstr "Weather API key not configured — skipping forecast.")]
  else
    match outcome with
    | .success =>
      [("city", .jstr city), ("date", .jstr date),
       ("temp_high_c", .null), ("temp_low_c", .null),
       ("conditions", .jstr "unknown"), ("precipitation_pct", .null),
       ("note", .jstr "Weather integration pending — placeholder data.")]
    | .statusError code =>
      [("city", .jstr city), ("date", .jstr date),
       ("error", .jstr ("Weather API returned " ++ toString code ++ "."))]
    | .requestError m =>
      [("city", .jstr city), ("date", .jstr date),
       ("error", .jstr ("Weather API request failed: " ++ m))]

/-- A model-issued tool call: tool name, argument payload (opaque here), and
correlation id. -/
structure ToolCall where
  name : String
  args : String
  id : String
deriving DecidableEq, Repr

/-- The LangChain message kinds that flow through the agent graph:
`SystemMessage`, `HumanMessage`, `AIMessage` (with its `tool_calls` list),
and `ToolMessage` (a tool result correlated by `tool_call_id`). -/
inductive Message where
  | system (content : String)
  | human (content : String)
  | ai (content : String) (tool_calls : List ToolCall)
  | tool (content : String) (tool_call_id : String)
deriving DecidableEq, Repr

/-- `isinstance(m, AIMessage)`. -/
def Message.isAI : Message → Bool
  | .ai _ _ => true
  | _ => false

/-- Routing targets of the conditional edge out of the `agent` node: the
`"tools"` node or `END`. -/
inductive Route where
  | tools
  | endRoute
deriving DecidableEq, Repr

/-- The body of `_should_continue` (travel_agent.py lines 91-101) applied to
the last message: route to `"tools"` iff the message is an `AIMessage` whose
`tool_calls` list is non-empty (Python truthiness of the list). -/
def shouldContinueLast : Message → Route
  | .ai _ tcs => if tcs.isEmpty then .endRoute else .tools
  | _ => .endRoute

/-- `_should_continue` on a state: inspects `state["messages"][-1]`, which
requires a non-empty message list. -/
def _should_continue (msgs : List Message) (h : msgs ≠ []) : Route :=
  shouldContinueLast (msgs.getLast h)

/-- The `tools` node (`ToolNode(tools=ALL_TOOLS)`): executes each requested
tool call in request order and appends one `ToolMessage` per call, carrying
the result content and correlated by the call id. `toolImpl` maps a tool
name and argument payload to the result content. -/
def toolResults (toolImpl : String → String → String) (tcs : List ToolCall) :
    List Message :=
  tcs.map (fun tc => Message.tool (toolImpl tc.name tc.args) tc.id)

/-- One execution of the compiled graph from the `agent` entry point
(travel_agent.py lines 105-147), with explicit fuel since the source places
no cap on model/tool round-trips. `model` is the LLM with tools bound: from
the message history it produces the content and `tool_calls` of one
`AIMessage` (the `agent` node appends exactly that message). `calls` counts
model invocations so far; the result carries the final message list and the
total number of model invocations. `none` only when the fuel runs out. -/
def runGraphFrom (model : List Message → String × List ToolCall)
    (toolImpl : String → String → String) :
    Nat → List Message → Nat → Option (List Message × Nat)
  | 0, _, _ => none
  | fuel + 1, msgs, calls =>
    match shouldContinueLast (Message.ai (model msgs).1 (model msgs).2) with
    | .endRoute => some (msgs ++ [Message.ai (model msgs).1 (model msgs).2], calls + 1)
    | .tools =>
      runGraphFrom model toolImpl fuel
        (msgs ++ [Message.ai (model msgs).1 (model msgs).2]
          ++ toolResults toolImpl (model msgs).2) (calls + 1)

/-- The model-invocation counter only grows: a completed run made at least
one model call beyond the starting count. -/
theorem runGraphFrom_calls_lt (model : List Message → String × List ToolCall)
    (toolImpl : String → String → String) :
    ∀ (fuel : Nat) (msgs : List Message) (calls : Nat) (final : List Message) (n : Nat),
      runGraphFrom model toolImpl fuel msgs calls = some (final, n) → calls < n := by
  intro fuel
  induction fuel with
  | zero => intro msgs calls final n h; exact absurd h (by simp [runGraphFrom])
  | succ fuel ih =>
    intro msgs calls final n h
    rw [runGraphFrom] at h
    rcases hr : shouldContinueLast (Message.ai (model msgs).1 (model msgs).2) with _ | _
    · rw [hr] at h
      have := ih _ _ _ _ h
      omega
    · rw [hr] at h
      simp at h
      omega

/-- `SYSTEM_PROMPT` (prompts.py lines 7-71), transcribed verbatim (the
Python literal opens with `"""\` so it has no leading newline, and closes
after a final newline). -/
def SYSTEM_PROMPT : String :=
  "You are **Atlas**, an expert AI travel assistant.\n\n## Your mission\nHelp users plan detailed, personalised trips.  You have access to tools\nfor searching destinations, checking weather, and managing itineraries.\nUse them proactively — don\x27t guess when you can look things up.\n\n"
  ++ "## Itinerary format\nWhen generating or refining a trip, produce a structured itinerary that\nincludes all of the following:\n\n### Flights\n- Suggest outbound and return flights with: airline, flight number,\n  departure/arrival airports and times, duration, cabin class, and an\n  estimated cost in USD.\n- Flights are informational only — no booking in v1.\n\n"
  ++ "### Accommodation\n- Suggest lodging with: property name, star rating, nightly rate,\n  total cost for the stay, check-in/out dates, location, and a brief\n  description.\n\n"
  ++ "### Daily activities\n- Break each day into **time-blocked activities**.  Every activity must\n  have a ``start_time`` (HH:MM) and ``end_time`` (HH:MM), a category\n  (sightseeing, food, culture, adventure, or leisure), an\n  ``estimated_cost_usd``, and a location label.\n- Between consecutive activities, insert a **TravelSegment** with\n  transit mode (walk / bus / train / taxi), estimated travel time in\n  minutes, and a brief route description.\n- At the end of each day, the sum of activity costs gives the daily\n  estimate.\n\n"
  ++ "### Budget\n- Total trip budget = flights + lodging + sum of daily estimates.\n- Surface the total prominently.\n\n"
  ++ "## Personalisation\n- At the start of each conversation, load the user\x27s profile (when\n  available) and use it to tailor destination suggestions, activity\n  types, pacing, and budget.\n- The user\x27s **current request always takes priority** over profile\n  defaults.\n- When the user saves an itinerary, update their profile to learn from\n  the new trip.\n\n"
  ++ "## Partial itineraries\n- If the user provides days that are already planned, **preserve them\n  exactly** and only generate the missing days.\n- Ensure geographic and thematic continuity between user-supplied and\n  generated days (no duplicate activities, logical travel flow).\n\n"
  ++ "## Activity notes\n- For each activity, include an agent note with practical tips,\n  official website links, Google Maps links, and source references.\n- Note any transit concerns when getting from the previous activity\n  to the current one (e.g. \"40 min bus ride — different\n  neighbourhood\").\n\n"
  ++ "## Tone & style\n- Be concise, helpful, and enthusiastic about travel.\n- Use markdown formatting where appropriate.\n- If you are uncertain, say so and offer alternatives.\n"

/-- The message seeding performed by `invoke_agent` (travel_agent.py lines
172-177): start from `[SystemMessage(SYSTEM_PROMPT)]`, extend with
`chat_history` when that list is non-empty (the `if chat_history:`
truthiness test), then append `HumanMessage(user_message)`. -/
def invoke_agent_seed (user_message : String) (chat_history : List Message) :
    List Message :=
  let messages := [Message.system SYSTEM_PROMPT]
  let messages := if chat_history.isEmpty then messages else messages ++ chat_history
  messages ++ [Message.human user_message]

/-- `invoke_agent` (travel_agent.py lines 151-180): build the graph, seed
the messages, invoke the graph, and return the last message of the final
state. -/
def invoke_agent (model : List Message → String × List ToolCall)
    (toolImpl : String → String → String) (fuel : Nat)
    (user_message : String) (chat_history : List Message) : Option Message :=
  (runGraphFrom model toolImpl fuel (invoke_agent_seed user_message chat_history) 0).bind
    (fun r => r.1.getLast?)

-- ── The graph as a transition system ──────────────────────────────────

/-- Nodes of the compiled graph: the `agent` node, the `tools` node, and the
terminal `END`. -/
inductive GNode where
  | agent | tools | done
deriving DecidableEq, Repr

/-- A graph-execution state: the node about to run (or `done`) and the
accumulated message channel. -/
structure GState where
  node : GNode
  messages : List Message
deriving DecidableEq, Repr

/-- Small-step transition relation of the compiled graph for a fixed model
function and tool implementation: the `agent` node appends the model's
`AIMessage` and routes through `_should_continue`; the `tools` node appends
the tool results for the last message's tool calls and returns to `agent`. -/
inductive Step (model : List Message → String × List ToolCall)
    (toolImpl : String → String → String) : GState → GState → Prop where
  | agentEnd : ∀ msgs c tcs, model msgs = (c, tcs) →
      shouldContinueLast (Message.ai c tcs) = Route.endRoute →
      Step model toolImpl ⟨GNode.agent, msgs⟩ ⟨GNode.done, msgs ++ [Message.ai c tcs]⟩
  | agentTools : ∀ msgs c tcs, model msgs = (c, tcs) →
      shouldContinueLast (Message.ai c tcs) = Route.tools →
      Step model toolImpl ⟨GNode.agent, msgs⟩ ⟨GNode.tools, msgs ++ [Message.ai c tcs]⟩
  | toolsExec : ∀ msgs c tcs, msgs.getLast? = some (Message.ai c tcs) →
      Step model toolImpl ⟨GNode.tools, msgs⟩ ⟨GNode.agent, msgs ++ toolResults toolImpl tcs⟩

theorem step_not_from_done {model : List Message → String × List ToolCall}
    {toolImpl : String → String → String} {s s2 : GState}
    (h : Step model toolImpl s s2) : s.node ≠ GNode.done := by
  cases h <;> simp

theorem step_deterministic {model : List Message → String × List ToolCall}
    {toolImpl : String → String → String} {s s1 s2 : GState}
    (h1 : Step model toolImpl s s1) (h2 : Step model toolImpl s s2) : s1 = s2 := by
  cases h1 with
  | agentEnd msgs c tcs hm hr =>
    cases h2 with
    | agentEnd msgs2 c2 tcs2 hm2 hr2 =>
      rw [hm] at hm2
      injection hm2 with e1 e2
      subst e1; subst e2; rfl
    | agentTools msgs2 c2 tcs2 hm2 hr2 =>
      rw [hm] at hm2
      injection hm2 with e1 e2
      subst e1; subst e2
      rw [hr] at hr2
      exact absurd hr2 (by simp)
  | agentTools msgs c tcs hm hr =>
    cases h2 with
    | agentEnd msgs2 c2 tcs2 hm2 hr2 =>
      rw [hm] at hm2
      injection hm2 with e1 e2
      subst e1; subst e2
      rw [hr] at hr2
      exact absurd hr2 (by simp)
    | agentTools msgs2 c2 tcs2 hm2 hr2 =>
      rw [hm] at hm2
      injection hm2 with e1 e2
      subst e1; subst e2; rfl
  | toolsExec msgs c tcs hlast =>
    cases h2 with
    | toolsExec msgs2 c2 tcs2 hlast2 =>
      rw [hlast] at hlast2
      injection hlast2 with e
      injection e with e1 e2
      subst e1; subst e2; rfl

/-- A complete run of the graph: the finite trajectory of states from a
start state to a terminal (`done`) state under `Step`. -/
inductive Run (model : List Message → String × List ToolCall)
    (toolImpl : String → String → String) : GState → List GState → Prop where
  | last : ∀ s, s.node = GNode.done → Run model toolImpl s [s]
  | step : ∀ s s2 tr, Step model toolImpl s s2 → Run model toolImpl s2 tr →
      Run model toolImpl s (s :: tr)

theorem run_deterministic {model : List Message → String × List ToolCall}
    {toolImpl : String → String → String} {s : GState} {tr1 tr2 : List GState}
    (h1 : Run model toolImpl s tr1) (h2 : Run model toolImpl s tr2) : tr1 = tr2 := by
  induction h1 generalizing tr2 with
  | last s hdone =>
    cases h2 with
    | last _ => rfl
    | step _ s2 tr hstep _ => exact absurd hdone (step_not_from_done hstep)
  | step s s2 tr hstep hrun ih =>
    cases h2 with
    | last s0 hdone => exact absurd hdone (step_not_from_done hstep)
    | step s0 s2b trb hstep2 hrun2 =>
      have e : s2 = s2b := step_deterministic hstep hstep2
      subst e
      rw [ih hrun2]

-- ── Claims ────────────────────────────────────────────────────────────

/-- C1: Constructing an `Itinerary` with `end_date <= start_date` fails with
the validation error "end_date must be after start_date", a message that
names the `end_date` field; with `end_date > start_date` construction
succeeds and the instance satisfies `end_date > start_date`. -/
theorem claim_C1 (destination : Destination) (sd ed : Date)
    (p : TripPreferences) (ds : List ItineraryDay) (fs : List Flight)
    (acs : List Accommodation) (ca : DateTime) :
    (ed ≤ sd →
      Itinerary.construct destination sd ed p ds fs acs ca =
        .error "end_date must be after start_date" ∧
      ∃ suffix, "end_date must be after start_date" = "end_date" ++ suffix) ∧
    (sd < ed →
      ∃ it, Itinerary.construct destination sd ed p ds fs acs ca = .ok it ∧
        it.start_date < it.end_date ∧ it.start_date = sd ∧ it.end_date = ed) := by
  constructor
  · intro h
    refine ⟨?_, " must be after start_date", rfl⟩
    simp [Itinerary.construct, Itinerary.end_after_start, h]
  · intro h
    have h2 : ¬ ed ≤ sd := not_le.mpr h
    refine ⟨⟨destination, sd, ed, p, ds, fs, acs, ca⟩, ?_, h, rfl, rfl⟩
    simp [Itinerary.construct, Itinerary.end_after_start, h2]

theorem claim_C1_witness :
    (Itinerary.construct ⟨"Kyoto", "Japan", none, none⟩ 5 5
        TripPreferences.defaults [] [] [] 0 =
      .error "end_date must be after start_date") ∧
    ∃ it, Itinerary.construct ⟨"Kyoto", "Japan", none, none⟩ 1 6
        TripPreferences.defaults [] [] [] 0 = .ok it ∧
      it.start_date < it.end_date :=
  ⟨((claim_C1 ⟨"Kyoto", "Japan", none, none⟩ 5 5
      TripPreferences.defaults [] [] [] 0).1 (by decide)).1,
   by
    obtain ⟨it, ha, hb, _⟩ := (claim_C1 ⟨"Kyoto", "Japan", none, none⟩ 1 6
      TripPreferences.defaults [] [] [] 0).2 (by decide)
    exact ⟨it, ha, hb⟩⟩

/-- C2: when the model answers with no tool calls, the conditional edge
routes to END and the run returns with exactly that message appended after
one model call; when the model requests tool calls, the edge routes to the
tools node, the tool results are appended in request order, and the graph
loops back to the agent node, so any completed run makes at least one
further model call. -/
theorem claim_C2 (model : List Message → String × List ToolCall)
    (toolImpl : String → String → String) (s : List Message)
    (fuel calls : Nat) (c : String) (tcs : List ToolCall)
    (h : model s = (c, tcs)) :
    (tcs = [] →
      shouldContinueLast (Message.ai c tcs) = Route.endRoute ∧
      runGraphFrom model toolImpl (fuel + 1) s calls =
        some (s ++ [Message.ai c tcs], calls + 1) ∧
      (s ++ [Message.ai c tcs]).getLast? = some (Message.ai c tcs)) ∧
    (tcs ≠ [] →
      shouldContinueLast (Message.ai c tcs) = Route.tools ∧
      runGraphFrom model toolImpl (fuel + 1) s calls =
        runGraphFrom model toolImpl fuel
          (s ++ [Message.ai c tcs] ++ toolResults toolImpl tcs) (calls + 1) ∧
      (∀ final n,
        runGraphFrom model toolImpl (fuel + 1) s calls = some (final, n) →
        calls + 2 ≤ n)) := by
  constructor
  · intro htc
    subst htc
    refine ⟨rfl, ?_, ?_⟩
    · rw [runGraphFrom]
      simp [h, shouldContinueLast]
    · simp
  · intro htc
    have hne : tcs.isEmpty = false := by
      cases tcs with
      | nil => exact absurd rfl htc
      | cons a l => rfl
    have hroute : shouldContinueLast (Message.ai c tcs) = Route.tools := by
      simp [shouldContinueLast, hne]
    have heq : runGraphFrom model toolImpl (fuel + 1) s calls =
        runGraphFrom model toolImpl fuel
          (s ++ [Message.ai c tcs] ++ toolResults toolImpl tcs) (calls + 1) := by
      rw [runGraphFrom]
      simp [h, hroute]
    refine ⟨hroute, heq, ?_⟩
    intro final n hrun
    rw [heq] at hrun
    have := runGraphFrom_calls_lt model toolImpl fuel _ _ _ _ hrun
    omega

theorem claim_C2_witness :
    shouldContinueLast (Message.ai "done" []) = Route.endRoute ∧
    runGraphFrom (fun _ => ("done", [])) (fun _ _ => "") 1 [] 0 =
      some ([Message.ai "done" []], 1) ∧
    ([] ++ [Message.ai "done" []]).getLast? = some (Message.ai "done" []) :=
  (claim_C2 (fun _ => ("done", [])) (fun _ _ => "") [] 0 0 "done" [] rfl).1 rfl

/-- C3: `invoke_agent` seeds the graph with exactly one system message
carrying `SYSTEM_PROMPT`, then the chat history in original order, then one
human message carrying the user input. -/
theorem claim_C3 (user_message : String) (chat_history : List Message) :
    invoke_agent_seed user_message chat_history =
      Message.system SYSTEM_PROMPT ::
        (chat_history ++ [Message.human user_message]) := by
  cases chat_history <;> simp [invoke_agent_seed]

/-- C4: `get_weather` always returns a record echoing the requested city and
date — in the unconfigured-credential branch together with an "error"
indicator — and never raises, in every branch. -/
theorem claim_C4 (city date api_key : String) (outcome : HttpOutcome) :
    (get_weather city date api_key outcome).lookup "city" = some (.jstr city) ∧
    (get_weather city date api_key outcome).lookup "date" = some (.jstr date) ∧
    (api_key = "" →
      (get_weather city date api_key outcome).lookup "error" =
        some (.jstr "Weather API key not configured — skipping forecast.")) := by
  by_cases hk : api_key = "" <;> cases outcome <;>
    simp [get_weather, hk, List.lookup]

theorem claim_C4_witness :
    (get_weather "Kyoto" "2025-04-01" "" HttpOutcome.success).lookup "error" =
      some (.jstr "Weather API key not configured — skipping forecast.") :=
  (claim_C4 "Kyoto" "2025-04-01" "" HttpOutcome.success).2.2 rfl

/-- C5 counterexample: assigning `name := "Osaka"` to a constructed
`Destination` succeeds and changes the instance, because `Destination`
declares no `model_config` and is therefore not frozen in the source. -/
theorem claim_C5_counterexample :
    setAttr Destination.frozen (Destination.mk "Kyoto" "Japan" none none)
        (Destination.mk "Osaka" "Japan" none none) =
      .ok (Destination.mk "Osaka" "Japan" none none) ∧
    afterSetAttr Destination.frozen (Destination.mk "Kyoto" "Japan" none none)
        (Destination.mk "Osaka" "Japan" none none) ≠
      Destination.mk "Kyoto" "Japan" none none :=
  ⟨rfl, by decide⟩

/-- C5 (amended): field assignment on `Activity`, `ActivityNote`,
`TravelSegment`, `ItineraryDay`, `Flight` and `Accommodation` is rejected
with a frozen-instance error and leaves the instance unchanged; on
`Destination`, which is not frozen, assignment succeeds and updates the
instance. -/
theorem claim_C5 :
    (∀ x y : Activity, setAttr Activity.frozen x y = .error "Instance is frozen" ∧
      afterSetAttr Activity.frozen x y = x) ∧
    (∀ x y : ActivityNote,
      setAttr ActivityNote.frozen x y = .error "Instance is frozen" ∧
      afterSetAttr ActivityNote.frozen x y = x) ∧
    (∀ x y : TravelSegment,
      setAttr TravelSegment.frozen x y = .error "Instance is frozen" ∧
      afterSetAttr TravelSegment.frozen x y = x) ∧
    (∀ x y : ItineraryDay,
      setAttr ItineraryDay.frozen x y = .error "Instance is frozen" ∧
      afterSetAttr ItineraryDay.frozen x y = x) ∧
    (∀ x y : Flight, setAttr Flight.frozen x y = .error "Instance is frozen" ∧
      afterSetAttr Flight.frozen x y = x) ∧
    (∀ x y : Accommodation,
      setAttr Accommodation.frozen x y = .error "Instance is frozen" ∧
      afterSetAttr Accommodation.frozen x y = x) ∧
    (∀ x y : Destination, setAttr Destination.frozen x y = .ok y ∧
      afterSetAttr Destination.frozen x y = y) :=
  ⟨fun _ _ => ⟨rfl, rfl⟩, fun _ _ => ⟨rfl, rfl⟩, fun _ _ => ⟨rfl, rfl⟩,
   fun _ _ => ⟨rfl, rfl⟩, fun _ _ => ⟨rfl, rfl⟩, fun _ _ => ⟨rfl, rfl⟩,
   fun _ _ => ⟨rfl, rfl⟩⟩

/-- C6 counterexample: constructing `TripPreferences` with
`traveler_count = 0`, or with a negative `budget_usd`, succeeds — the source
declares no bounds on either field. -/
theorem claim_C6_counterexample :
    TripPreferences.construct 0 none [] [] TripPace.moderate =
      .ok ⟨0, none, [], [], TripPace.moderate⟩ ∧
    TripPreferences.construct 1 (some (-100)) [] [] TripPace.moderate =
      .ok ⟨1, some (-100), [], [], TripPace.moderate⟩ :=
  ⟨rfl, rfl⟩

/-- C6 (amended): `TripPreferences` declares no `Field` constraints, so every
well-typed construction succeeds — including `traveler_count < 1` and
negative `budget_usd` — and the declared defaults are `traveler_count = 1`
and `pace = moderate`. -/
theorem claim_C6 (tc : Int) (b : Option Rat) (i a : List String) (p : TripPace) :
    TripPreferences.construct tc b i a p = .ok ⟨tc, b, i, a, p⟩ ∧
    TripPreferences.defaults.pace = TripPace.moderate ∧
    TripPreferences.defaults.traveler_count = 1 :=
  ⟨rfl, rfl, rfl⟩

/-- C7: serializing any documented domain entity to its interchange form and
validating it back yields a field-for-field equal value, for every
well-formed instance of every entity, including an `Itinerary` with nested
days, activities, notes, flights, and accommodations. Well-formedness only
constrains `Itinerary`, whose `end_after_start` validator re-runs during
`model_validate`: its instances must satisfy `start_date < end_date` (no
other entity has a validator). -/
theorem claim_C7 :
    (∀ x : TripPreferences, TripPreferences.model_validate x.model_dump = .ok x) ∧
    (∀ x : Destination, Destination.model_validate x.model_dump = .ok x) ∧
    (∀ x : ActivityNote, ActivityNote.model_validate x.model_dump = .ok x) ∧
    (∀ x : Activity, Activity.model_validate x.model_dump = .ok x) ∧
    (∀ x : TravelSegment, TravelSegment.model_validate x.model_dump = .ok x) ∧
    (∀ x : ItineraryDay, ItineraryDay.model_validate x.model_dump = .ok x) ∧
    (∀ x : Flight, Flight.model_validate x.model_dump = .ok x) ∧
    (∀ x : Accommodation, Accommodation.model_validate x.model_dump = .ok x) ∧
    (∀ x : Itinerary, x.start_date < x.end_date →
      Itinerary.model_validate x.model_dump = .ok x) ∧
    (∀ x : ChatMessage, ChatMessage.model_validate x.model_dump = .ok x) ∧
    (∀ x : UserProfile, UserProfile.model_validate x.model_dump = .ok x) :=
  ⟨tripPreferences_model_rt, destination_model_rt, activityNote_model_rt,
   activity_model_rt, travelSegment_model_rt, itineraryDay_model_rt,
   flight_model_rt, accommodation_model_rt, itinerary_model_rt,
   chatMessage_model_rt, userProfile_model_rt⟩

theorem claim_C7_witness :
    Itinerary.model_validate
        (Itinerary.mk (Destination.mk "Kyoto" "Japan" none none) 1 6
          TripPreferences.defaults [] [] [] 0).model_dump =
      .ok (Itinerary.mk (Destination.mk "Kyoto" "Japan" none none) 1 6
        TripPreferences.defaults [] [] [] 0) :=
  claim_C7.2.2.2.2.2.2.2.2.1
    (Itinerary.mk (Destination.mk "Kyoto" "Japan" none none) 1 6
      TripPreferences.defaults [] [] [] 0) (by decide)

/-- C8: for a fixed (deterministic) model function and tool implementation,
any two complete runs of the graph from the same initial state are the same
trajectory and end in the same final state. -/
theorem claim_C8 (model : List Message → String × List ToolCall)
    (toolImpl : String → String → String) (s : GState) (tr1 tr2 : List GState)
    (h1 : Run model toolImpl s tr1) (h2 : Run model toolImpl s tr2) :
    tr1 = tr2 ∧ tr1.getLast? = tr2.getLast? := by
  have e := run_deterministic h1 h2
  exact ⟨e, by rw [e]⟩

theorem claim_C8_witness :
    ([⟨GNode.agent, []⟩, ⟨GNode.done, [Message.ai "ok" []]⟩] : List GState) =
      ([⟨GNode.agent, []⟩, ⟨GNode.done, [Message.ai "ok" []]⟩] : List GState) ∧
    ([⟨GNode.agent, []⟩, ⟨GNode.done, [Message.ai "ok" []]⟩] : List GState).getLast? =
      ([⟨GNode.agent, []⟩, ⟨GNode.done, [Message.ai "ok" []]⟩] : List GState).getLast? :=
  claim_C8 (fun _ => ("ok", [])) (fun _ _ => "") ⟨GNode.agent, []⟩ _ _
    (Run.step _ _ _ (Step.agentEnd [] "ok" [] rfl rfl) (Run.last _ rfl))
    (Run.step _ _ _ (Step.agentEnd [] "ok" [] rfl rfl) (Run.last _ rfl))

/-- C10: on a non-empty state whose last message is not an `AIMessage`,
`_should_continue` routes to END; the tools route occurs only when the last
message is an `AIMessage` with a non-empty `tool_calls` list. -/
theorem claim_C10 (msgs : List Message) (h : msgs ≠ []) :
    ((msgs.getLast h).isAI = false → _should_continue msgs h = Route.endRoute) ∧
    (_should_continue msgs h = Route.tools →
      ∃ c tcs, msgs.getLast h = Message.ai c tcs ∧ tcs ≠ []) := by
  constructor
  · intro hna
    unfold _should_continue
    cases hl : msgs.getLast h with
    | ai c tcs => rw [hl] at hna; simp [Message.isAI] at hna
    | system c => simp [shouldContinueLast]
    | human c => simp [shouldContinueLast]
    | tool c i => simp [shouldContinueLast]
  · intro ht
    unfold _should_continue at ht
    cases hl : msgs.getLast h with
    | ai c tcs =>
      rw [hl] at ht
      by_cases he : tcs.isEmpty
      · simp [shouldContinueLast, he] at ht
      · refine ⟨c, tcs, rfl, ?_⟩
        intro hn
        subst hn
        exact he rfl
    | system c => rw [hl] at ht; simp [shouldContinueLast] at ht
    | human c => rw [hl] at ht; simp [shouldContinueLast] at ht
    | tool c i => rw [hl] at ht; simp [shouldContinueLast] at ht

theorem claim_C10_witness :
    _should_continue [Message.human "hi"] (by simp) = Route.endRoute :=
  (claim_C10 [Message.human "hi"] (by simp)).1 rfl

end Atlas
